import Mathlib

/-!
Verification of the ReservasSalas reservation engine.

Shallow embedding of the Rust sources:
  * `crates/features/reservas/domain/src/reserva.rs`  (entity, validation, overlap)
  * `crates/features/reservas/domain/src/error.rs`    (error kinds)
  * `crates/features/reservas/application/src/service.rs` (service operations)
  * `crates/features/reservas/infrastructure/src/inmemory_repository.rs`
  * `crates/features/reservas/infrastructure/src/file_repository.rs`

Modelling conventions:
  * `chrono::DateTime<Utc>` is modelled as an integer timestamp `Int`
    (nanoseconds since the epoch); chrono's `<`, `<=` and subtraction are the
    integer ones, and `chrono::Duration::minutes/hours` are the corresponding
    nanosecond counts.
  * `Utc::now()` and `Uuid::new_v4()` are impure inputs; the embedding passes
    them as explicit parameters (`ahora`, `createdNow`, `newId`).
  * `HashMap<String, Reserva>` is modelled as an association list with
    HashMap semantics (lookup of the key, replace-on-insert, remove-by-key).
  * The async repository methods mutate `&self`; each is embedded as a pure
    function from the old state to the pair (new state, returned value).
-/

/- Timestamps (`chrono::DateTime<Utc>`) are plain `Int` nanosecond counts
since the epoch throughout this file. -/

deriving instance DecidableEq for Except

/-- Rust's `s.trim().is_empty()`: true iff every character of `s` is
whitespace. Stated over the character list because Lean's position-based
`String.trim` does not reduce in the kernel. -/
def trimVacio (s : String) : Bool :=
  s.data.all Char.isWhitespace

/-- `EstadoReserva` from `reserva.rs`. -/
inductive EstadoReserva where
  | Activa
  | Cancelada
  | Completada
deriving DecidableEq, Repr

/-- The `Reserva` entity from `reserva.rs`. -/
structure Reserva where
  id : String
  sala_id : String
  usuario_id : String
  fecha_inicio : Int
  fecha_fin : Int
  estado : EstadoReserva
  created_at : Int
deriving DecidableEq, Repr

/-- `ReservaError` from `error.rs`. -/
inductive ReservaError where
  | SalaIdVacio
  | UsuarioIdVacio
  | FechaInicioInvalida
  | FechaFinInvalida
  | FechaFinAnteriorAInicio
  | DuracionInvalida
  | NoEncontrada
  | ErrorRepositorio (msg : String)
  | Validacion (msgs : List String)
deriving DecidableEq, Repr

/-- `Duration::minutes(15)` in nanoseconds (`reserva.rs`, `min_duracion`). -/
def min_duracion : Int := 15 * 60 * 1000000000

/-- `Duration::hours(8)` in nanoseconds (`reserva.rs`, `max_duracion`). -/
def max_duracion : Int := 8 * 60 * 60 * 1000000000

/-- The `errores` vector accumulated by `Reserva::new` (`reserva.rs` lines
34-69), in push order: empty ids, past dates, end-before-start, duration. -/
def Reserva.erroresValidacion (sala_id usuario_id : String)
    (fecha_inicio fecha_fin ahora : Int) : List String :=
  (if trimVacio sala_id then ["El ID de sala no puede estar vacío"] else []) ++
  (if trimVacio usuario_id then ["El ID de usuario no puede estar vacío"] else []) ++
  (if fecha_inicio < ahora then ["La fecha de inicio no puede ser en el pasado"] else []) ++
  (if fecha_fin < ahora then ["La fecha de fin no puede ser en el pasado"] else []) ++
  (if fecha_fin ≤ fecha_inicio
    then ["La fecha de fin debe ser posterior a la fecha de inicio"] else []) ++
  (if fecha_fin - fecha_inicio < min_duracion ∨ max_duracion < fecha_fin - fecha_inicio
    then ["La duración de la reserva debe ser entre 15 minutos y 8 horas"] else [])

/-- `Reserva::new` (`reserva.rs` lines 28-85). `ahora` is the `Utc::now()`
read for validation, `createdNow` the one stored in `created_at`, and
`newId` the generated `Uuid::new_v4().to_string()`. -/
def Reserva.new (sala_id usuario_id : String) (fecha_inicio fecha_fin : Int)
    (ahora createdNow : Int) (newId : String) : Except ReservaError Reserva :=
  let errores := Reserva.erroresValidacion sala_id usuario_id fecha_inicio fecha_fin ahora
  if errores.isEmpty then
    .ok { id := newId, sala_id := sala_id, usuario_id := usuario_id,
          fecha_inicio := fecha_inicio, fecha_fin := fecha_fin,
          estado := .Activa, created_at := createdNow }
  else
    .error (.Validacion errores)

/-- `Reserva::from_existing` (`reserva.rs` lines 88-106). -/
def Reserva.from_existing (id sala_id usuario_id : String)
    (fecha_inicio fecha_fin : Int) (estado : EstadoReserva)
    (created_at : Int) : Reserva :=
  { id := id, sala_id := sala_id, usuario_id := usuario_id,
    fecha_inicio := fecha_inicio, fecha_fin := fecha_fin,
    estado := estado, created_at := created_at }

/-- `Reserva::esta_activa` (`reserva.rs` lines 138-140). -/
def Reserva.esta_activa (r : Reserva) : Bool :=
  r.estado == EstadoReserva.Activa

/-- `Reserva::cancelar` (`reserva.rs` lines 142-144): sets the state,
unconditionally. -/
def Reserva.cancelar (r : Reserva) : Reserva :=
  { r with estado := .Cancelada }

/-- `Reserva::completar` (`reserva.rs` lines 146-148): sets the state,
unconditionally. -/
def Reserva.completar (r : Reserva) : Reserva :=
  { r with estado := .Completada }

/-- `Reserva::se_solapa_con` (`reserva.rs` lines 151-164). -/
def Reserva.se_solapa_con (r otra : Reserva) : Bool :=
  if r.sala_id != otra.sala_id then false
  else if !r.esta_activa || !otra.esta_activa then false
  else decide (r.fecha_inicio < otra.fecha_fin) && decide (otra.fecha_inicio < r.fecha_fin)

/-- `Reserva::duracion_minutos` (`reserva.rs` lines 167-169). -/
def Reserva.duracion_minutos (r : Reserva) : Int :=
  (r.fecha_fin - r.fecha_inicio) / 60000000000

/-! ## The reservation map (`HashMap<String, Reserva>`) -/

/-- The in-memory `HashMap<String, Reserva>` as an association list. -/
abbrev ReservaMap := List (String × Reserva)

/-- `HashMap::get(id).cloned()`. -/
def mapGet (m : ReservaMap) (id : String) : Option Reserva :=
  (m.find? (fun p => p.fst == id)).map Prod.snd

/-- `HashMap::insert(id, r)`: replace the binding if the key is present,
append it otherwise. -/
def mapInsert (m : ReservaMap) (id : String) (r : Reserva) : ReservaMap :=
  if (m.find? (fun p => p.fst == id)).isSome then
    m.map (fun p => if p.fst == id then (id, r) else p)
  else
    m ++ [(id, r)]

/-- `HashMap::remove(id)`: drop the binding with that key. -/
def mapRemove (m : ReservaMap) (id : String) : ReservaMap :=
  m.filter (fun p => p.fst != id)

/-- `HashMap::contains_key(id)`. -/
def mapContains (m : ReservaMap) (id : String) : Bool :=
  (m.find? (fun p => p.fst == id)).isSome

/-! ## `InMemoryReservaRepository` (`inmemory_repository.rs`)

Each `async fn` taking `&self` is embedded as a pure function from the map
held behind the `RwLock` to (new map, returned value), or just to the
returned value when the method only reads. -/

namespace InMemoryRepo

/-- `guardar` (`inmemory_repository.rs` lines 57-61): insert, always `Ok`. -/
def guardar (m : ReservaMap) (r : Reserva) : ReservaMap :=
  mapInsert m r.id r

/-- `obtener` (lines 63-66). -/
def obtener (m : ReservaMap) (id : String) : Option Reserva :=
  mapGet m id

/-- `listar` (lines 68-71). -/
def listar (m : ReservaMap) : List Reserva :=
  m.map Prod.snd

/-- `listar_por_sala` (lines 73-80). -/
def listar_por_sala (m : ReservaMap) (sala_id : String) : List Reserva :=
  (m.map Prod.snd).filter (fun r => r.sala_id == sala_id)

/-- `listar_por_usuario` (lines 82-89). -/
def listar_por_usuario (m : ReservaMap) (usuario_id : String) : List Reserva :=
  (m.map Prod.snd).filter (fun r => r.usuario_id == usuario_id)

/-- `listar_por_sala_y_rango` (lines 91-108): active reservations of the
room whose interval intersects `[inicio, fin)`. -/
def listar_por_sala_y_rango (m : ReservaMap) (sala_id : String)
    (inicio fin : Int) : List Reserva :=
  (m.map Prod.snd).filter (fun r =>
    r.sala_id == sala_id && r.esta_activa
      && decide (r.fecha_inicio < fin) && decide (r.fecha_fin > inicio))

/-- `actualizar` (lines 110-119): replace when the key is present,
`NoEncontrada` (and no mutation) otherwise. -/
def actualizar (m : ReservaMap) (r : Reserva) : ReservaMap × Except ReservaError Unit :=
  if mapContains m r.id then
    (mapInsert m r.id r, .ok ())
  else
    (m, .error .NoEncontrada)

/-- `eliminar` (lines 121-129): remove when the key is present,
`NoEncontrada` (and no mutation) otherwise. -/
def eliminar (m : ReservaMap) (id : String) : ReservaMap × Except ReservaError Unit :=
  if mapContains m id then
    (mapRemove m id, .ok ())
  else
    (m, .error .NoEncontrada)

end InMemoryRepo

/-! ## External lookups used by the service

The service consults `SalaRepository::obtener` (using only `esta_activa`)
and `UsuarioRepository::obtener` (using only existence). The `Sala` entity
(`salas/domain/src/sala.rs`) is modelled with the fields the service
reads; the lookups are modelled as pure functions, as the in-memory
repositories behind them never fail. -/

/-- `Sala` (`salas/domain/src/sala.rs`), restricted to what the
reservation service reads: `esta_activa()` returns the `activa` flag. -/
structure Sala where
  id : String
  activa : Bool
deriving DecidableEq, Repr

/-- `Sala::esta_activa` (`sala.rs` lines 54-56). -/
def Sala.esta_activa (s : Sala) : Bool :=
  s.activa

/-! ## `ReservaServiceImpl` (`service.rs`)

Embedded as pure functions over the reservation map plus the two
lookup functions; `usuario` lookups matter only through existence, so the
user entity is `Unit`. -/

namespace Servicio

/-- `verificar_disponibilidad` (`service.rs` lines 182-212): fetch the
room's active reservations intersecting the range, build a transient
`Active` reservation via `from_existing`, and report availability iff
none of them `se_solapa_con` it. `ahora` is the `Utc::now()` stored in
the transient instance's `created_at`. -/
def verificar_disponibilidad (m : ReservaMap) (sala_id : String)
    (fecha_inicio fecha_fin : Int) (ahora : Int) : Bool :=
  let reservas := InMemoryRepo.listar_por_sala_y_rango m sala_id fecha_inicio fecha_fin
  let reserva_temporal :=
    Reserva.from_existing "temp" sala_id "temp_user" fecha_inicio fecha_fin .Activa ahora
  !(reservas.any (fun r => reserva_temporal.se_solapa_con r))

/-- `cancelar_reserva` (`service.rs` lines 142-160): load by id
(`NoEncontrada` if absent), reject non-active with a validation message,
otherwise `cancelar` the entity, persist it via `actualizar`, and return
it. -/
def cancelar_reserva (m : ReservaMap) (id : String) :
    ReservaMap × Except ReservaError Reserva :=
  match InMemoryRepo.obtener m id with
  | none => (m, .error .NoEncontrada)
  | some reserva =>
    if !reserva.esta_activa then
      (m, .error (.Validacion ["Solo se pueden cancelar reservas activas"]))
    else
      let r := reserva.cancelar
      match InMemoryRepo.actualizar m r with
      | (m2, .error e) => (m2, .error e)
      | (m2, .ok _) => (m2, .ok r)

/-- `completar_reserva` (`service.rs` lines 162-180): symmetric to
`cancelar_reserva`, transitioning to `Completada`. -/
def completar_reserva (m : ReservaMap) (id : String) :
    ReservaMap × Except ReservaError Reserva :=
  match InMemoryRepo.obtener m id with
  | none => (m, .error .NoEncontrada)
  | some reserva =>
    if !reserva.esta_activa then
      (m, .error (.Validacion ["Solo se pueden completar reservas activas"]))
    else
      let r := reserva.completar
      match InMemoryRepo.actualizar m r with
      | (m2, .error e) => (m2, .error e)
      | (m2, .ok _) => (m2, .ok r)

/-- `crear_reserva` (`service.rs` lines 72-121): room lookup (validation
error if absent or inactive), requester lookup (validation error if
absent), entity construction, availability check, then `guardar`. -/
def crear_reserva (salaLookup : String → Option Sala)
    (usuarioLookup : String → Option Unit) (m : ReservaMap)
    (sala_id usuario_id : String) (fecha_inicio fecha_fin : Int)
    (ahora createdNow : Int) (newId : String) :
    ReservaMap × Except ReservaError Reserva :=
  match salaLookup sala_id with
  | none => (m, .error (.Validacion ["La sala no existe"]))
  | some sala =>
    if !sala.esta_activa then
      (m, .error (.Validacion ["La sala no está activa"]))
    else
      match usuarioLookup usuario_id with
      | none => (m, .error (.Validacion ["El usuario no existe"]))
      | some _ =>
        match Reserva.new sala_id usuario_id fecha_inicio fecha_fin ahora createdNow newId with
        | .error e => (m, .error e)
        | .ok reserva =>
          if !(verificar_disponibilidad m sala_id fecha_inicio fecha_fin ahora) then
            (m, .error (.Validacion ["La sala no está disponible en el horario solicitado"]))
          else
            (InMemoryRepo.guardar m reserva, .ok reserva)

end Servicio

/-! ## `FileReservaRepository` (`file_repository.rs`)

The backing file is modelled at the level of the JSON document (the AST
that `serde_json::to_string_pretty` renders and `serde_json::from_str`
parses back): `file = none` is a missing file, `file = some j` a file
holding document `j`. The derived serde encoding of `ReservasData` is a
top-level object mapping reservation id to a reservation object whose
string fields are JSON strings, whose `estado` is the variant name, and
whose timestamps are the (RFC 3339-rendered) instants, kept here as their
numeric value. -/

/-- JSON document AST: what stands between the repository cache and the
bytes on disk. -/
inductive Json where
  | str : String → Json
  | num : Int → Json
  | obj : List (String × Json) → Json

/-- Field lookup in a JSON object. -/
def Json.field (j : Json) (k : String) : Option Json :=
  match j with
  | .obj fields => (fields.find? (fun p => p.fst == k)).map Prod.snd
  | _ => none

/-- A JSON string, if that is what the value is. -/
def Json.asStr : Json → Option String
  | .str s => some s
  | _ => none

/-- A JSON number, if that is what the value is. -/
def Json.asNum : Json → Option Int
  | .num n => some n
  | _ => none

/-- serde encoding of `EstadoReserva`: the variant name. -/
def encodeEstado : EstadoReserva → Json
  | .Activa => .str "Activa"
  | .Cancelada => .str "Cancelada"
  | .Completada => .str "Completada"

/-- serde decoding of `EstadoReserva`. -/
def decodeEstado : Json → Option EstadoReserva
  | .str "Activa" => some .Activa
  | .str "Cancelada" => some .Cancelada
  | .str "Completada" => some .Completada
  | _ => none

/-- serde encoding of one `Reserva`: an object with its seven fields. -/
def encodeReserva (r : Reserva) : Json :=
  .obj [("id", .str r.id), ("sala_id", .str r.sala_id),
        ("usuario_id", .str r.usuario_id),
        ("fecha_inicio", .num r.fecha_inicio), ("fecha_fin", .num r.fecha_fin),
        ("estado", encodeEstado r.estado), ("created_at", .num r.created_at)]

/-- serde decoding of one `Reserva`: every field must be present and of
the right shape. -/
def decodeReserva (j : Json) : Option Reserva := do
  let id ← (j.field "id").bind Json.asStr
  let sala ← (j.field "sala_id").bind Json.asStr
  let usuario ← (j.field "usuario_id").bind Json.asStr
  let fi ← (j.field "fecha_inicio").bind Json.asNum
  let ff ← (j.field "fecha_fin").bind Json.asNum
  let est ← (j.field "estado").bind decodeEstado
  let ca ← (j.field "created_at").bind Json.asNum
  pure { id := id, sala_id := sala, usuario_id := usuario,
         fecha_inicio := fi, fecha_fin := ff, estado := est, created_at := ca }

/-- serde encoding of `ReservasData`: one object, reservation id to
encoded reservation. -/
def encodeData (m : ReservaMap) : Json :=
  .obj (m.map (fun p => (p.fst, encodeReserva p.snd)))

/-- serde decoding of the entries of `ReservasData`, one at a time; any
bad entry fails the whole parse. -/
def decodeEntries : List (String × Json) → Option ReservaMap
  | [] => some []
  | p :: t => do
    let r ← decodeReserva p.snd
    let rest ← decodeEntries t
    pure ((p.fst, r) :: rest)

/-- serde decoding of `ReservasData`: a non-object or a bad entry is a
parse failure. -/
def decodeData (j : Json) : Option ReservaMap :=
  match j with
  | .obj fields => decodeEntries fields
  | _ => none

/-- State of a `FileReservaRepository`: the backing file's JSON document
(if the file exists) and the in-memory cache. -/
structure FileRepo where
  file : Option Json
  cache : ReservaMap

namespace FileRepo

/-- `FileReservaRepository::new` (`file_repository.rs` lines 32-37): a
fresh instance over whatever file is at the path, with an empty cache. -/
def new (file : Option Json) : FileRepo :=
  { file := file, cache := [] }

/-- `save_to_file` (lines 69-99): serialize the whole cache and overwrite
the file. -/
def save_to_file (s : FileRepo) : FileRepo :=
  { s with file := some (encodeData s.cache) }

/-- `load_from_file` (lines 45-66): a missing file means start empty;
otherwise parse the document into the cache, surfacing a parse failure as
`ErrorRepositorio`. -/
def load_from_file (s : FileRepo) : Except ReservaError FileRepo :=
  match s.file with
  | none => .ok s
  | some j =>
    match decodeData j with
    | none => .error (.ErrorRepositorio "Error al parsear JSON")
    | some m => .ok { s with cache := m }

/-- `init` (lines 104-106). -/
def init (s : FileRepo) : Except ReservaError FileRepo :=
  s.load_from_file

/-- `guardar` (lines 117-124): insert into the cache, then flush. -/
def guardar (s : FileRepo) (r : Reserva) : FileRepo :=
  save_to_file { s with cache := mapInsert s.cache r.id r }

/-- `obtener` (lines 126-129). -/
def obtener (s : FileRepo) (id : String) : Option Reserva :=
  mapGet s.cache id

/-- `actualizar` (lines 173-185): replace in the cache and flush when the
key is present, `NoEncontrada` (no mutation, no flush) otherwise. -/
def actualizar (s : FileRepo) (r : Reserva) : FileRepo × Except ReservaError Unit :=
  if mapContains s.cache r.id then
    (save_to_file { s with cache := mapInsert s.cache r.id r }, .ok ())
  else
    (s, .error .NoEncontrada)

/-- `eliminar` (lines 187-198): remove from the cache and flush when the
key is present, `NoEncontrada` (no mutation, no flush) otherwise. -/
def eliminar (s : FileRepo) (id : String) : FileRepo × Except ReservaError Unit :=
  if mapContains s.cache id then
    (save_to_file { s with cache := mapRemove s.cache id }, .ok ())
  else
    (s, .error .NoEncontrada)

end FileRepo

/-- Well-formedness of a repository map: every binding's key is its
reservation's `id`. Every state reachable through the repository API has
this shape, since `guardar`/`actualizar` always insert under `r.id`. -/
def WF (m : ReservaMap) : Prop :=
  ∀ p ∈ m, p.fst = p.snd.id

instance : DecidablePred WF := fun m =>
  inferInstanceAs (Decidable (∀ p ∈ m, p.fst = p.snd.id))

/-! ## Helper lemmas -/

/-- Boolean characterisation of `se_solapa_con`. -/
theorem se_solapa_con_iff (a b : Reserva) :
    a.se_solapa_con b = true ↔
      (a.sala_id = b.sala_id ∧ a.estado = .Activa ∧ b.estado = .Activa ∧
       a.fecha_inicio < b.fecha_fin ∧ b.fecha_inicio < a.fecha_fin) := by
  unfold Reserva.se_solapa_con Reserva.esta_activa
  by_cases hs : a.sala_id = b.sala_id
  · by_cases ha : a.estado = EstadoReserva.Activa
    · by_cases hb : b.estado = EstadoReserva.Activa
      · simp [hs, ha, hb, and_assoc]
      · simp [hs, ha, hb]
    · simp [hs, ha]
  · simp [hs]

theorem mapContains_eq_isSome (m : ReservaMap) (id : String) :
    mapContains m id = (mapGet m id).isSome := by
  unfold mapContains mapGet
  cases m.find? (fun p => p.fst == id) <;> rfl

theorem find?_map_replace (m : ReservaMap) (id : String) (r : Reserva) :
    (m.map (fun p => if p.fst == id then (id, r) else p)).find? (fun p => p.fst == id)
      = (m.find? (fun p => p.fst == id)).map (fun _ => (id, r)) := by
  induction m with
  | nil => rfl
  | cons p t ih =>
    by_cases h : (p.fst == id) = true
    · simp [List.find?, h, -List.find?_map]
    · simp [List.find?, h, -List.find?_map]
      simpa using ih

theorem find?_map_replace_ne (m : ReservaMap) (id k : String) (r : Reserva)
    (h : id ≠ k) :
    (m.map (fun p => if p.fst == id then (id, r) else p)).find? (fun p => p.fst == k)
      = m.find? (fun p => p.fst == k) := by
  induction m with
  | nil => rfl
  | cons p t ih =>
    by_cases hp : (p.fst == id) = true
    · have hpid : p.fst = id := by simpa using hp
      have hik : (id == k) = false := by simp [h]
      have hpk : (p.fst == k) = false := by simp [hpid, h]
      simp [List.find?, hp, hik, hpk, -List.find?_map]
      simpa using ih
    · by_cases hk : (p.fst == k) = true
      · simp [List.find?, hp, hk, -List.find?_map]
      · simp [List.find?, hp, hk, -List.find?_map]
        simpa using ih

theorem mapGet_mapInsert_self (m : ReservaMap) (id : String) (r : Reserva) :
    mapGet (mapInsert m id r) id = some r := by
  unfold mapInsert
  by_cases h : (m.find? (fun p => p.fst == id)).isSome = true
  · rcases Option.isSome_iff_exists.mp h with ⟨x, hx⟩
    rw [if_pos h]
    unfold mapGet
    rw [find?_map_replace, hx]
    rfl
  · have hn : m.find? (fun p => p.fst == id) = none := by
      cases hf : m.find? (fun p => p.fst == id)
      · rfl
      · rw [hf] at h; cases h rfl
    rw [if_neg h]
    unfold mapGet
    rw [List.find?_append, hn]
    simp [List.find?]

theorem mapGet_mapInsert_ne (m : ReservaMap) (id k : String) (r : Reserva)
    (h : k ≠ id) :
    mapGet (mapInsert m id r) k = mapGet m k := by
  unfold mapInsert
  by_cases hc : (m.find? (fun p => p.fst == id)).isSome = true
  · rw [if_pos hc]
    unfold mapGet
    rw [find?_map_replace_ne m id k r (Ne.symm h)]
  · rw [if_neg hc]
    unfold mapGet
    rw [List.find?_append]
    have hik : ((id, r).fst == k) = false := by simp [Ne.symm h]
    simp [List.find?, hik]

theorem mapGet_mapRemove_self (m : ReservaMap) (id : String) :
    mapGet (mapRemove m id) id = none := by
  unfold mapGet mapRemove
  have hfind : (m.filter fun p => p.fst != id).find? (fun p => p.fst == id) = none := by
    rw [List.find?_eq_none]
    intro x hx
    have hk := (List.mem_filter.mp hx).2
    simp only [bne_iff_ne, ne_eq] at hk
    simp [hk]
  simp [hfind]

theorem mapGet_mapRemove_ne (m : ReservaMap) (id k : String) (h : k ≠ id) :
    mapGet (mapRemove m id) k = mapGet m k := by
  unfold mapGet mapRemove
  induction m with
  | nil => rfl
  | cons p t ih =>
    by_cases hid : (p.fst == id) = true
    · have hpid : p.fst = id := by simpa using hid
      have hpk : (p.fst == k) = false := by simp [hpid, Ne.symm h]
      have hik : (id == k) = false := by simp [Ne.symm h]
      simp [List.filter_cons, List.find?, hpid, hpk, hik, ih, -List.find?_filter]
    · have hbne : (p.fst != id) = true := by
        simpa [bne_iff_ne] using hid
      by_cases hk : (p.fst == k) = true
      · simp [List.filter_cons, List.find?, hbne, hk, -List.find?_filter]
      · simp [List.filter_cons, List.find?, hbne, hk, ih, -List.find?_filter]

theorem mapGet_some_id (m : ReservaMap) (id : String) (r : Reserva)
    (hwf : WF m) (h : mapGet m id = some r) : r.id = id := by
  unfold mapGet at h
  cases hf : m.find? (fun p => p.fst == id) with
  | none => rw [hf] at h; cases h
  | some p =>
    rw [hf] at h
    have hr : p.snd = r := by simpa using h
    have hpred : p.fst = id := by simpa using List.find?_some hf
    have hkey : p.fst = p.snd.id := hwf p (List.mem_of_find?_eq_some hf)
    rw [← hr, ← hkey, hpred]

theorem mem_err_sala (sala usuario : String) (fi ff ahora : Int)
    (h : trimVacio sala = true) :
    "El ID de sala no puede estar vacío"
      ∈ Reserva.erroresValidacion sala usuario fi ff ahora := by
  unfold Reserva.erroresValidacion
  simp [h]

theorem mem_err_usuario (sala usuario : String) (fi ff ahora : Int)
    (h : trimVacio usuario = true) :
    "El ID de usuario no puede estar vacío"
      ∈ Reserva.erroresValidacion sala usuario fi ff ahora := by
  unfold Reserva.erroresValidacion
  simp [h]

theorem mem_err_inicio (sala usuario : String) (fi ff ahora : Int)
    (h : fi < ahora) :
    "La fecha de inicio no puede ser en el pasado"
      ∈ Reserva.erroresValidacion sala usuario fi ff ahora := by
  unfold Reserva.erroresValidacion
  simp [h]

theorem mem_err_fin (sala usuario : String) (fi ff ahora : Int)
    (h : ff < ahora) :
    "La fecha de fin no puede ser en el pasado"
      ∈ Reserva.erroresValidacion sala usuario fi ff ahora := by
  unfold Reserva.erroresValidacion
  simp [h]

theorem mem_err_orden (sala usuario : String) (fi ff ahora : Int)
    (h : ff ≤ fi) :
    "La fecha de fin debe ser posterior a la fecha de inicio"
      ∈ Reserva.erroresValidacion sala usuario fi ff ahora := by
  unfold Reserva.erroresValidacion
  simp [h]

theorem mem_err_duracion (sala usuario : String) (fi ff ahora : Int)
    (h : ff - fi < min_duracion ∨ max_duracion < ff - fi) :
    "La duración de la reserva debe ser entre 15 minutos y 8 horas"
      ∈ Reserva.erroresValidacion sala usuario fi ff ahora := by
  unfold Reserva.erroresValidacion
  simp [h]

theorem new_eq_error_of_ne_nil (sala usuario : String) (fi ff ahora cn : Int)
    (nid : String) (h : Reserva.erroresValidacion sala usuario fi ff ahora ≠ []) :
    Reserva.new sala usuario fi ff ahora cn nid
      = .error (.Validacion (Reserva.erroresValidacion sala usuario fi ff ahora)) := by
  cases hE : Reserva.erroresValidacion sala usuario fi ff ahora with
  | nil => exact absurd hE h
  | cons a t => simp [Reserva.new, hE]

theorem decodeEstado_encodeEstado (e : EstadoReserva) :
    decodeEstado (encodeEstado e) = some e := by
  cases e <;> rfl

theorem decodeReserva_encodeReserva (r : Reserva) :
    decodeReserva (encodeReserva r) = some r := by
  cases r with
  | mk i s u fi ff est ca => cases est <;> rfl

theorem decodeEntries_encode (m : ReservaMap) :
    decodeEntries (m.map (fun p => (p.fst, encodeReserva p.snd))) = some m := by
  induction m with
  | nil => rfl
  | cons p t ih => simp [decodeEntries, decodeReserva_encodeReserva, ih]

theorem decodeData_encodeData (m : ReservaMap) :
    decodeData (encodeData m) = some m := by
  unfold decodeData encodeData
  exact decodeEntries_encode m

/-! ## The claims -/

/-- C5: `Reserva::new` collects every violated field rule into a single
`Validacion` list — whenever a rule is violated its message is in the
returned list, never only the first one — and for empty ids with both
dates in the past the error carries at least four messages. -/
theorem c5_validacion_completa :
    (∀ (sala usuario : String) (fi ff ahora cn : Int) (nid : String),
      (trimVacio sala = true →
        "El ID de sala no puede estar vacío"
          ∈ Reserva.erroresValidacion sala usuario fi ff ahora) ∧
      (trimVacio usuario = true →
        "El ID de usuario no puede estar vacío"
          ∈ Reserva.erroresValidacion sala usuario fi ff ahora) ∧
      (fi < ahora →
        "La fecha de inicio no puede ser en el pasado"
          ∈ Reserva.erroresValidacion sala usuario fi ff ahora) ∧
      (ff < ahora →
        "La fecha de fin no puede ser en el pasado"
          ∈ Reserva.erroresValidacion sala usuario fi ff ahora) ∧
      (ff ≤ fi →
        "La fecha de fin debe ser posterior a la fecha de inicio"
          ∈ Reserva.erroresValidacion sala usuario fi ff ahora) ∧
      ((ff - fi < min_duracion ∨ max_duracion < ff - fi) →
        "La duración de la reserva debe ser entre 15 minutos y 8 horas"
          ∈ Reserva.erroresValidacion sala usuario fi ff ahora) ∧
      (Reserva.erroresValidacion sala usuario fi ff ahora ≠ [] →
        Reserva.new sala usuario fi ff ahora cn nid
          = .error (.Validacion (Reserva.erroresValidacion sala usuario fi ff ahora)))) ∧
    Reserva.new "" "" 50 50 100 100 "x"
      = .error (.Validacion
          ["El ID de sala no puede estar vacío",
           "El ID de usuario no puede estar vacío",
           "La fecha de inicio no puede ser en el pasado",
           "La fecha de fin no puede ser en el pasado",
           "La fecha de fin debe ser posterior a la fecha de inicio",
           "La duración de la reserva debe ser entre 15 minutos y 8 horas"]) ∧
    4 ≤ (Reserva.erroresValidacion "" "" 50 50 100).length := by
  refine ⟨?_, by decide, by decide⟩
  intro sala usuario fi ff ahora cn nid
  exact ⟨mem_err_sala sala usuario fi ff ahora,
         mem_err_usuario sala usuario fi ff ahora,
         mem_err_inicio sala usuario fi ff ahora,
         mem_err_fin sala usuario fi ff ahora,
         mem_err_orden sala usuario fi ff ahora,
         mem_err_duracion sala usuario fi ff ahora,
         new_eq_error_of_ne_nil sala usuario fi ff ahora cn nid⟩

/-- C5 witness: each single-rule violation's message at concrete inputs,
and the aggregated error for the all-invalid input. -/
theorem c5_witness :
    "El ID de sala no puede estar vacío"
      ∈ Reserva.erroresValidacion "" "usuario1" 1000 (1000 + min_duracion) 0 ∧
    "El ID de usuario no puede estar vacío"
      ∈ Reserva.erroresValidacion "sala1" " " 1000 (1000 + min_duracion) 0 ∧
    "La fecha de inicio no puede ser en el pasado"
      ∈ Reserva.erroresValidacion "sala1" "usuario1" 50 (50 + min_duracion) 100 ∧
    "La fecha de fin no puede ser en el pasado"
      ∈ Reserva.erroresValidacion "sala1" "usuario1" 50 60 100 ∧
    "La fecha de fin debe ser posterior a la fecha de inicio"
      ∈ Reserva.erroresValidacion "sala1" "usuario1" 200 100 0 ∧
    "La duración de la reserva debe ser entre 15 minutos y 8 horas"
      ∈ Reserva.erroresValidacion "sala1" "usuario1" 100 200 0 ∧
    Reserva.new "" "" 50 50 100 100 "x"
      = .error (.Validacion (Reserva.erroresValidacion "" "" 50 50 100)) := by
  have h := c5_validacion_completa.1
  exact ⟨(h "" "usuario1" 1000 (1000 + min_duracion) 0 0 "x").1 (by decide),
         (h "sala1" " " 1000 (1000 + min_duracion) 0 0 "x").2.1 (by decide),
         (h "sala1" "usuario1" 50 (50 + min_duracion) 100 0 "x").2.2.1 (by decide),
         (h "sala1" "usuario1" 50 60 100 0 "x").2.2.2.1 (by decide),
         (h "sala1" "usuario1" 200 100 0 0 "x").2.2.2.2.1 (by decide),
         (h "sala1" "usuario1" 100 200 0 0 "x").2.2.2.2.2.1 (by decide),
         (h "" "" 50 50 100 100 "x").2.2.2.2.2.2 (by decide)⟩

/-- C6: `Reserva::new` succeeds only when the duration lies in
[15 minutes, 8 hours]; with the other field rules satisfied the two
boundary durations are accepted, any out-of-range duration is rejected
with the duration message, and a 10-minute reservation with otherwise
valid data fails with exactly that message. -/
theorem c6_duracion_limites :
    (∀ (sala usuario : String) (fi ff ahora cn : Int) (nid : String) (r : Reserva),
      Reserva.new sala usuario fi ff ahora cn nid = .ok r →
        min_duracion ≤ ff - fi ∧ ff - fi ≤ max_duracion) ∧
    (∀ (sala usuario : String) (fi ahora cn : Int) (nid : String),
      trimVacio sala = false → trimVacio usuario = false → ahora ≤ fi →
        Reserva.new sala usuario fi (fi + min_duracion) ahora cn nid
          = .ok (Reserva.mk nid sala usuario fi (fi + min_duracion) .Activa cn)) ∧
    (∀ (sala usuario : String) (fi ahora cn : Int) (nid : String),
      trimVacio sala = false → trimVacio usuario = false → ahora ≤ fi →
        Reserva.new sala usuario fi (fi + max_duracion) ahora cn nid
          = .ok (Reserva.mk nid sala usuario fi (fi + max_duracion) .Activa cn)) ∧
    (∀ (sala usuario : String) (fi ff ahora cn : Int) (nid : String),
      (ff - fi < min_duracion ∨ max_duracion < ff - fi) →
        ∃ msgs, Reserva.new sala usuario fi ff ahora cn nid
            = .error (.Validacion msgs) ∧
          "La duración de la reserva debe ser entre 15 minutos y 8 horas" ∈ msgs) ∧
    Reserva.new "sala1" "usuario1" 3600000000000 4200000000000 0 0 "id1"
      = .error (.Validacion
          ["La duración de la reserva debe ser entre 15 minutos y 8 horas"]) := by
  refine ⟨?_, ?_, ?_, ?_, by decide⟩
  · intro sala usuario fi ff ahora cn nid r h
    by_contra hnot
    have hout : ff - fi < min_duracion ∨ max_duracion < ff - fi := by
      rcases not_and_or.mp hnot with h' | h'
      · exact Or.inl (lt_of_not_le h')
      · exact Or.inr (lt_of_not_le h')
    have hmem := mem_err_duracion sala usuario fi ff ahora hout
    cases hE : Reserva.erroresValidacion sala usuario fi ff ahora with
    | nil => rw [hE] at hmem; cases hmem
    | cons a t => simp [Reserva.new, hE] at h
  · intro sala usuario fi ahora cn nid h1 h2 h3
    have hpos : (0 : Int) < min_duracion := by decide
    have hmm : min_duracion ≤ max_duracion := by decide
    have hE : Reserva.erroresValidacion sala usuario fi (fi + min_duracion) ahora = [] := by
      have ha : ¬ (fi < ahora) := not_lt.mpr h3
      have hb : ¬ (fi + min_duracion < ahora) := by omega
      have hc : ¬ (fi + min_duracion ≤ fi) := by omega
      have hd : ¬ (fi + min_duracion - fi < min_duracion ∨
          max_duracion < fi + min_duracion - fi) := by omega
      simp [Reserva.erroresValidacion, h1, h2, ha, hb, hc, hd, hmm]
    simp [Reserva.new, hE]
  · intro sala usuario fi ahora cn nid h1 h2 h3
    have hpos : (0 : Int) < max_duracion := by decide
    have hmm : min_duracion ≤ max_duracion := by decide
    have hE : Reserva.erroresValidacion sala usuario fi (fi + max_duracion) ahora = [] := by
      have ha : ¬ (fi < ahora) := not_lt.mpr h3
      have hb : ¬ (fi + max_duracion < ahora) := by omega
      have hc : ¬ (fi + max_duracion ≤ fi) := by omega
      have hd : ¬ (fi + max_duracion - fi < min_duracion ∨
          max_duracion < fi + max_duracion - fi) := by omega
      simp [Reserva.erroresValidacion, h1, h2, ha, hb, hc, hd, hmm]
    simp [Reserva.new, hE]
  · intro sala usuario fi ff ahora cn nid h
    have hmem := mem_err_duracion sala usuario fi ff ahora h
    exact ⟨Reserva.erroresValidacion sala usuario fi ff ahora,
           new_eq_error_of_ne_nil sala usuario fi ff ahora cn nid
             (List.ne_nil_of_mem hmem),
           hmem⟩

/-- C6 witness: the bounds extracted from a successful construction, both
boundary durations accepted, and a too-long duration rejected, all at
concrete inputs. -/
theorem c6_witness :
    (min_duracion ≤ min_duracion - 0 ∧ min_duracion - 0 ≤ max_duracion) ∧
    Reserva.new "sala1" "usuario1" 0 (0 + min_duracion) 0 7 "id1"
      = .ok (Reserva.mk "id1" "sala1" "usuario1" 0 (0 + min_duracion) .Activa 7) ∧
    Reserva.new "sala1" "usuario1" 0 (0 + max_duracion) 0 7 "id1"
      = .ok (Reserva.mk "id1" "sala1" "usuario1" 0 (0 + max_duracion) .Activa 7) ∧
    ∃ msgs, Reserva.new "sala1" "usuario1" 0 (max_duracion + max_duracion) 0 7 "id1"
        = .error (.Validacion msgs) ∧
      "La duración de la reserva debe ser entre 15 minutos y 8 horas" ∈ msgs := by
  refine ⟨?_, ?_, ?_, ?_⟩
  · exact c6_duracion_limites.1 "sala1" "usuario1" 0 min_duracion 0 7 "id1"
      (Reserva.mk "id1" "sala1" "usuario1" 0 min_duracion .Activa 7) (by decide)
  · exact c6_duracion_limites.2.1 "sala1" "usuario1" 0 0 7 "id1"
      (by decide) (by decide) (by decide)
  · exact c6_duracion_limites.2.2.1 "sala1" "usuario1" 0 0 7 "id1"
      (by decide) (by decide) (by decide)
  · exact c6_duracion_limites.2.2.2.1 "sala1" "usuario1" 0
      (max_duracion + max_duracion) 0 7 "id1" (by right; decide)

/-- C2 fails on the code: when the room lookup finds no room,
`crear_reserva` returns the `Validacion` kind (message "La sala no
existe"), which is not the `NoEncontrada` (not-found) kind. -/
theorem c2_counterexample :
    Servicio.crear_reserva (fun _ => none) (fun _ => some ()) [] "R1" "U1" 100 200 0 0 "id1"
      = ([], .error (.Validacion ["La sala no existe"])) ∧
    ReservaError.Validacion ["La sala no existe"] ≠ ReservaError.NoEncontrada := by
  exact ⟨rfl, by decide⟩

/-- C2 (amended): a missing room, an inactive room, and a missing
requester all make `crear_reserva` fail with the `Validacion` error kind
carrying the corresponding message — never with the distinct
`NoEncontrada` kind, which the service reserves for reservation ids. -/
theorem c2_inexistente_es_validacion :
    (∀ (salaL : String → Option Sala) (usrL : String → Option Unit) (m : ReservaMap)
       (sala usuario : String) (fi ff ahora cn : Int) (nid : String),
      salaL sala = none →
        Servicio.crear_reserva salaL usrL m sala usuario fi ff ahora cn nid
          = (m, .error (.Validacion ["La sala no existe"]))) ∧
    (∀ (salaL : String → Option Sala) (usrL : String → Option Unit) (m : ReservaMap)
       (sala usuario : String) (fi ff ahora cn : Int) (nid : String)
       (sEnt : Sala),
      salaL sala = some sEnt → sEnt.esta_activa = false →
        Servicio.crear_reserva salaL usrL m sala usuario fi ff ahora cn nid
          = (m, .error (.Validacion ["La sala no está activa"]))) ∧
    (∀ (salaL : String → Option Sala) (usrL : String → Option Unit) (m : ReservaMap)
       (sala usuario : String) (fi ff ahora cn : Int) (nid : String)
       (sEnt : Sala),
      salaL sala = some sEnt → sEnt.esta_activa = true → usrL usuario = none →
        Servicio.crear_reserva salaL usrL m sala usuario fi ff ahora cn nid
          = (m, .error (.Validacion ["El usuario no existe"]))) := by
  refine ⟨?_, ?_, ?_⟩
  · intro salaL usrL m sala usuario fi ff ahora cn nid h
    simp [Servicio.crear_reserva, h]
  · intro salaL usrL m sala usuario fi ff ahora cn nid sEnt h hact
    simp [Servicio.crear_reserva, h, hact]
  · intro salaL usrL m sala usuario fi ff ahora cn nid sEnt h hact hu
    simp [Servicio.crear_reserva, h, hact, hu]

/-- C2 witness: the three validation outcomes at concrete lookups. -/
theorem c2_witness :
    Servicio.crear_reserva (fun _ => none) (fun _ => some ()) [] "R9" "U1" 100 200 0 0 "i"
      = ([], .error (.Validacion ["La sala no existe"])) ∧
    Servicio.crear_reserva (fun _ => some (Sala.mk "R1" false)) (fun _ => some ()) []
        "R1" "U1" 100 200 0 0 "i"
      = ([], .error (.Validacion ["La sala no está activa"])) ∧
    Servicio.crear_reserva (fun _ => some (Sala.mk "R1" true)) (fun _ => none) []
        "R1" "U9" 100 200 0 0 "i"
      = ([], .error (.Validacion ["El usuario no existe"])) := by
  refine ⟨?_, ?_, ?_⟩
  · exact c2_inexistente_es_validacion.1 _ _ [] "R9" "U1" 100 200 0 0 "i" rfl
  · exact c2_inexistente_es_validacion.2.1 _ _ [] "R1" "U1" 100 200 0 0 "i"
      (Sala.mk "R1" false) rfl rfl
  · exact c2_inexistente_es_validacion.2.2 _ _ [] "R1" "U9" 100 200 0 0 "i"
      (Sala.mk "R1" true) rfl rfl rfl

/-- C7: saving a reservation through the file-backed repository and
re-loading the file from a fresh instance via `init` yields that very
reservation — all seven fields equal — under `obtener`, and the reloaded
cache is exactly the saved one. -/
theorem c7_roundtrip_archivo :
    ∀ (s : FileRepo) (r : Reserva),
      ∃ s2, (FileRepo.new (FileRepo.guardar s r).file).init = .ok s2 ∧
            s2.obtener r.id = some r ∧
            s2.cache = mapInsert s.cache r.id r := by
  intro s r
  refine ⟨FileRepo.mk (some (encodeData (mapInsert s.cache r.id r)))
            (mapInsert s.cache r.id r), ?_, ?_, rfl⟩
  · simp [FileRepo.new, FileRepo.guardar, FileRepo.save_to_file, FileRepo.init,
          FileRepo.load_from_file, decodeData_encodeData]
  · simp [FileRepo.obtener, mapGet_mapInsert_self]

/-- C1: `verificar_disponibilidad` answers `false` exactly when some stored
`Activa` reservation of the room intersects the half-open candidate
interval, and `true` otherwise; with one active reservation 10:00-12:00 in
the room, 11:00-13:00 is taken while 12:00-13:00 and 09:00-10:00 are free
(touching endpoints never conflict). -/
theorem c1_verificar_disponibilidad :
    (∀ (m : ReservaMap) (sala_id : String) (inicio fin ahora : Int),
      Servicio.verificar_disponibilidad m sala_id inicio fin ahora = false ↔
        ∃ r ∈ InMemoryRepo.listar m, r.sala_id = sala_id ∧ r.estado = .Activa ∧
          r.fecha_inicio < fin ∧ inicio < r.fecha_fin) ∧
    Servicio.verificar_disponibilidad
        [("r1", Reserva.mk "r1" "R1" "u1" 10 12 .Activa 0)] "R1" 11 13 0 = false ∧
    Servicio.verificar_disponibilidad
        [("r1", Reserva.mk "r1" "R1" "u1" 10 12 .Activa 0)] "R1" 12 13 0 = true ∧
    Servicio.verificar_disponibilidad
        [("r1", Reserva.mk "r1" "R1" "u1" 10 12 .Activa 0)] "R1" 9 10 0 = true := by
  refine ⟨?_, by decide, by decide, by decide⟩
  intro m sala_id inicio fin ahora
  unfold Servicio.verificar_disponibilidad InMemoryRepo.listar_por_sala_y_rango
    InMemoryRepo.listar Reserva.from_existing
  simp only [Bool.not_eq_false', List.any_eq_true, List.mem_filter,
    Bool.and_eq_true, decide_eq_true_eq, beq_iff_eq, se_solapa_con_iff]
  constructor
  · rintro ⟨r, hfil, hov⟩
    exact ⟨r, hfil.1, hov.1.symm, hov.2.2.1, hov.2.2.2.2, hov.2.2.2.1⟩
  · rintro ⟨r, hm, hsala, hact, h1, h2⟩
    exact ⟨r, ⟨hm, ⟨⟨hsala, by simp [Reserva.esta_activa, hact]⟩, h1⟩, h2⟩,
           hsala.symm, trivial, hact, h2, h1⟩

/-- C9: for an absent id, `actualizar` and `eliminar` return `NoEncontrada`
and leave the map (and, for the file repository, the whole state)
unchanged; for a present id they succeed, replacing or removing exactly
that entry — in both the in-memory and the file-backed implementation. -/
theorem c9_actualizar_eliminar :
    (∀ (m : ReservaMap) (r : Reserva), mapGet m r.id = none →
        InMemoryRepo.actualizar m r = (m, .error .NoEncontrada)) ∧
    (∀ (m : ReservaMap) (r : Reserva), (mapGet m r.id).isSome = true →
        (InMemoryRepo.actualizar m r).2 = .ok () ∧
        mapGet (InMemoryRepo.actualizar m r).1 r.id = some r ∧
        ∀ k, k ≠ r.id → mapGet (InMemoryRepo.actualizar m r).1 k = mapGet m k) ∧
    (∀ (m : ReservaMap) (id : String), mapGet m id = none →
        InMemoryRepo.eliminar m id = (m, .error .NoEncontrada)) ∧
    (∀ (m : ReservaMap) (id : String), (mapGet m id).isSome = true →
        (InMemoryRepo.eliminar m id).2 = .ok () ∧
        mapGet (InMemoryRepo.eliminar m id).1 id = none ∧
        ∀ k, k ≠ id → mapGet (InMemoryRepo.eliminar m id).1 k = mapGet m k) ∧
    (∀ (s : FileRepo) (r : Reserva), mapGet s.cache r.id = none →
        FileRepo.actualizar s r = (s, .error .NoEncontrada)) ∧
    (∀ (s : FileRepo) (r : Reserva), (mapGet s.cache r.id).isSome = true →
        (FileRepo.actualizar s r).2 = .ok () ∧
        mapGet (FileRepo.actualizar s r).1.cache r.id = some r ∧
        ∀ k, k ≠ r.id → mapGet (FileRepo.actualizar s r).1.cache k = mapGet s.cache k) ∧
    (∀ (s : FileRepo) (id : String), mapGet s.cache id = none →
        FileRepo.eliminar s id = (s, .error .NoEncontrada)) ∧
    (∀ (s : FileRepo) (id : String), (mapGet s.cache id).isSome = true →
        (FileRepo.eliminar s id).2 = .ok () ∧
        mapGet (FileRepo.eliminar s id).1.cache id = none ∧
        ∀ k, k ≠ id → mapGet (FileRepo.eliminar s id).1.cache k = mapGet s.cache k) := by
  refine ⟨?_, ?_, ?_, ?_, ?_, ?_, ?_, ?_⟩
  · intro m r h
    have hc : mapContains m r.id = false := by rw [mapContains_eq_isSome, h]; rfl
    simp [InMemoryRepo.actualizar, hc]
  · intro m r h
    have hc : mapContains m r.id = true := by rw [mapContains_eq_isSome, h]
    exact ⟨by simp [InMemoryRepo.actualizar, hc],
           by simp [InMemoryRepo.actualizar, hc, mapGet_mapInsert_self],
           fun k hk => by simp [InMemoryRepo.actualizar, hc, mapGet_mapInsert_ne m r.id k r hk]⟩
  · intro m id h
    have hc : mapContains m id = false := by rw [mapContains_eq_isSome, h]; rfl
    simp [InMemoryRepo.eliminar, hc]
  · intro m id h
    have hc : mapContains m id = true := by rw [mapContains_eq_isSome, h]
    exact ⟨by simp [InMemoryRepo.eliminar, hc],
           by simp [InMemoryRepo.eliminar, hc, mapGet_mapRemove_self],
           fun k hk => by simp [InMemoryRepo.eliminar, hc, mapGet_mapRemove_ne m id k hk]⟩
  · intro s r h
    have hc : mapContains s.cache r.id = false := by rw [mapContains_eq_isSome, h]; rfl
    simp [FileRepo.actualizar, hc]
  · intro s r h
    have hc : mapContains s.cache r.id = true := by rw [mapContains_eq_isSome, h]
    exact ⟨by simp [FileRepo.actualizar, hc],
           by simp [FileRepo.actualizar, FileRepo.save_to_file, hc, mapGet_mapInsert_self],
           fun k hk => by
             simp [FileRepo.actualizar, FileRepo.save_to_file, hc,
                   mapGet_mapInsert_ne s.cache r.id k r hk]⟩
  · intro s id h
    have hc : mapContains s.cache id = false := by rw [mapContains_eq_isSome, h]; rfl
    simp [FileRepo.eliminar, hc]
  · intro s id h
    have hc : mapContains s.cache id = true := by rw [mapContains_eq_isSome, h]
    exact ⟨by simp [FileRepo.eliminar, hc],
           by simp [FileRepo.eliminar, FileRepo.save_to_file, hc, mapGet_mapRemove_self],
           fun k hk => by
             simp [FileRepo.eliminar, FileRepo.save_to_file, hc,
                   mapGet_mapRemove_ne s.cache id k hk]⟩

/-- C9 witness: the eight cases at concrete repositories. -/
theorem c9_witness :
    InMemoryRepo.actualizar [] (Reserva.mk "r1" "R1" "u1" 10 12 .Activa 0)
      = ([], .error .NoEncontrada) ∧
    mapGet (InMemoryRepo.actualizar [("r1", Reserva.mk "r1" "R1" "u1" 10 12 .Activa 0)]
        (Reserva.mk "r1" "R1" "u1" 10 12 .Cancelada 0)).1 "r1"
      = some (Reserva.mk "r1" "R1" "u1" 10 12 .Cancelada 0) ∧
    InMemoryRepo.eliminar [] "r1" = ([], .error .NoEncontrada) ∧
    mapGet (InMemoryRepo.eliminar [("r1", Reserva.mk "r1" "R1" "u1" 10 12 .Activa 0)] "r1").1
        "r1" = none ∧
    FileRepo.actualizar (FileRepo.mk none []) (Reserva.mk "r1" "R1" "u1" 10 12 .Activa 0)
      = (FileRepo.mk none [], .error .NoEncontrada) ∧
    mapGet (FileRepo.actualizar
        (FileRepo.mk none [("r1", Reserva.mk "r1" "R1" "u1" 10 12 .Activa 0)])
        (Reserva.mk "r1" "R1" "u1" 10 12 .Cancelada 0)).1.cache "r1"
      = some (Reserva.mk "r1" "R1" "u1" 10 12 .Cancelada 0) ∧
    FileRepo.eliminar (FileRepo.mk none []) "r1" = (FileRepo.mk none [], .error .NoEncontrada) ∧
    mapGet (FileRepo.eliminar
        (FileRepo.mk none [("r1", Reserva.mk "r1" "R1" "u1" 10 12 .Activa 0)]) "r1").1.cache
        "r1" = none := by
  refine ⟨?_, ?_, ?_, ?_, ?_, ?_, ?_, ?_⟩
  · exact c9_actualizar_eliminar.1 [] _ (by decide)
  · exact (c9_actualizar_eliminar.2.1 _ _ (by decide)).2.1
  · exact c9_actualizar_eliminar.2.2.1 [] "r1" (by decide)
  · exact (c9_actualizar_eliminar.2.2.2.1 _ "r1" (by decide)).2.1
  · exact c9_actualizar_eliminar.2.2.2.2.1 _ _ (by decide)
  · exact (c9_actualizar_eliminar.2.2.2.2.2.1 _ _ (by decide)).2.1
  · exact c9_actualizar_eliminar.2.2.2.2.2.2.1 _ "r1" (by decide)
  · exact (c9_actualizar_eliminar.2.2.2.2.2.2.2 _ "r1" (by decide)).2.1

/-- C3: on a well-formed repository, `cancelar_reserva` is `NoEncontrada`
iff the id is absent, a `Validacion` error iff the reservation exists in a
non-`Activa` state (so terminal states are sticky: a second cancel or
complete always fails with a validation error, never succeeds, never
`NotFound`), and for an `Activa` reservation it persists and returns the
`Cancelada` entity; `completar_reserva` is symmetric. -/
theorem c3_cancelar_completar (m : ReservaMap) (id : String) (hwf : WF m) :
    ((Servicio.cancelar_reserva m id).2 = .error .NoEncontrada ↔
        InMemoryRepo.obtener m id = none) ∧
    ((∃ msgs, (Servicio.cancelar_reserva m id).2 = .error (.Validacion msgs)) ↔
        (∃ r, InMemoryRepo.obtener m id = some r ∧ r.estado ≠ .Activa)) ∧
    (∀ r, InMemoryRepo.obtener m id = some r → r.estado = .Activa →
        Servicio.cancelar_reserva m id = (mapInsert m id r.cancelar, .ok r.cancelar)) ∧
    ((Servicio.completar_reserva m id).2 = .error .NoEncontrada ↔
        InMemoryRepo.obtener m id = none) ∧
    ((∃ msgs, (Servicio.completar_reserva m id).2 = .error (.Validacion msgs)) ↔
        (∃ r, InMemoryRepo.obtener m id = some r ∧ r.estado ≠ .Activa)) ∧
    (∀ r, InMemoryRepo.obtener m id = some r → r.estado = .Activa →
        Servicio.completar_reserva m id = (mapInsert m id r.completar, .ok r.completar)) := by
  rcases hobt : InMemoryRepo.obtener m id with _ | reserva
  · refine ⟨by simp [Servicio.cancelar_reserva, hobt],
            by simp [Servicio.cancelar_reserva, hobt],
            by simp [hobt],
            by simp [Servicio.completar_reserva, hobt],
            by simp [Servicio.completar_reserva, hobt],
            by simp [hobt]⟩
  · have hrid : reserva.id = id := mapGet_some_id m id reserva hwf hobt
    by_cases hact : reserva.esta_activa = true
    · have hestado : reserva.estado = .Activa := by
        simpa [Reserva.esta_activa] using hact
      have hc : mapContains m id = true := by
        rw [mapContains_eq_isSome, show mapGet m id = some reserva from hobt]
        rfl
      have hcanc : Servicio.cancelar_reserva m id
          = (mapInsert m id reserva.cancelar, .ok reserva.cancelar) := by
        simp [Servicio.cancelar_reserva, hobt, hact, InMemoryRepo.actualizar,
              Reserva.cancelar, hc, hrid]
      have hcomp : Servicio.completar_reserva m id
          = (mapInsert m id reserva.completar, .ok reserva.completar) := by
        simp [Servicio.completar_reserva, hobt, hact, InMemoryRepo.actualizar,
              Reserva.completar, hc, hrid]
      refine ⟨?_, ?_, ?_, ?_, ?_, ?_⟩
      · simp [hcanc, hobt]
      · simp [hcanc, hobt, hestado]
      · intro r hr _
        obtain rfl : reserva = r := Option.some.inj hr
        exact hcanc
      · simp [hcomp, hobt]
      · simp [hcomp, hobt, hestado]
      · intro r hr _
        obtain rfl : reserva = r := Option.some.inj hr
        exact hcomp
    · have hestado : reserva.estado ≠ .Activa := by
        simpa [Reserva.esta_activa] using hact
      have hcanc : Servicio.cancelar_reserva m id
          = (m, .error (.Validacion ["Solo se pueden cancelar reservas activas"])) := by
        simp [Servicio.cancelar_reserva, hobt, hact]
      have hcomp : Servicio.completar_reserva m id
          = (m, .error (.Validacion ["Solo se pueden completar reservas activas"])) := by
        simp [Servicio.completar_reserva, hobt, hact]
      refine ⟨?_, ?_, ?_, ?_, ?_, ?_⟩
      · simp [hcanc, hobt]
      · simp only [hcanc, hobt]
        constructor
        · intro _; exact ⟨reserva, rfl, hestado⟩
        · intro _; exact ⟨["Solo se pueden cancelar reservas activas"], rfl⟩
      · intro r hr hra
        obtain rfl : reserva = r := Option.some.inj hr
        exact absurd hra hestado
      · simp [hcomp, hobt]
      · simp only [hcomp, hobt]
        constructor
        · intro _; exact ⟨reserva, rfl, hestado⟩
        · intro _; exact ⟨["Solo se pueden completar reservas activas"], rfl⟩
      · intro r hr hra
        obtain rfl : reserva = r := Option.some.inj hr
        exact absurd hra hestado

/-- C3 witness: a two-entry well-formed repository holding one `Activa`
and one `Completada` reservation: cancelling the active one persists the
cancellation; cancelling or completing the completed one is a validation
error; an unknown id is `NoEncontrada`. -/
theorem c3_witness :
    Servicio.cancelar_reserva
        [("a", Reserva.mk "a" "R1" "u1" 10 12 .Activa 0),
         ("b", Reserva.mk "b" "R1" "u2" 14 16 .Completada 0)] "a"
      = ([("a", Reserva.mk "a" "R1" "u1" 10 12 .Cancelada 0),
          ("b", Reserva.mk "b" "R1" "u2" 14 16 .Completada 0)],
         .ok (Reserva.mk "a" "R1" "u1" 10 12 .Cancelada 0)) ∧
    (∃ msgs, (Servicio.cancelar_reserva
        [("a", Reserva.mk "a" "R1" "u1" 10 12 .Activa 0),
         ("b", Reserva.mk "b" "R1" "u2" 14 16 .Completada 0)] "b").2
      = .error (.Validacion msgs)) ∧
    (∃ msgs, (Servicio.completar_reserva
        [("a", Reserva.mk "a" "R1" "u1" 10 12 .Activa 0),
         ("b", Reserva.mk "b" "R1" "u2" 14 16 .Completada 0)] "b").2
      = .error (.Validacion msgs)) ∧
    (Servicio.cancelar_reserva
        [("a", Reserva.mk "a" "R1" "u1" 10 12 .Activa 0),
         ("b", Reserva.mk "b" "R1" "u2" 14 16 .Completada 0)] "zzz").2
      = .error .NoEncontrada := by
  refine ⟨?_, ?_, ?_, ?_⟩
  · have h := (c3_cancelar_completar
      [("a", Reserva.mk "a" "R1" "u1" 10 12 .Activa 0),
       ("b", Reserva.mk "b" "R1" "u2" 14 16 .Completada 0)] "a" (by decide)).2.2.1
        (Reserva.mk "a" "R1" "u1" 10 12 .Activa 0) (by decide) rfl
    rw [h]; decide
  · exact ((c3_cancelar_completar
      [("a", Reserva.mk "a" "R1" "u1" 10 12 .Activa 0),
       ("b", Reserva.mk "b" "R1" "u2" 14 16 .Completada 0)] "b" (by decide)).2.1).mpr
        ⟨Reserva.mk "b" "R1" "u2" 14 16 .Completada 0, by decide, by decide⟩
  · exact ((c3_cancelar_completar
      [("a", Reserva.mk "a" "R1" "u1" 10 12 .Activa 0),
       ("b", Reserva.mk "b" "R1" "u2" 14 16 .Completada 0)] "b" (by decide)).2.2.2.2.1).mpr
        ⟨Reserva.mk "b" "R1" "u2" 14 16 .Completada 0, by decide, by decide⟩
  · exact ((c3_cancelar_completar
      [("a", Reserva.mk "a" "R1" "u1" 10 12 .Activa 0),
       ("b", Reserva.mk "b" "R1" "u2" 14 16 .Completada 0)] "zzz" (by decide)).1).mpr
        (by decide)

/-- C4: `se_solapa_con` is true exactly for same-room, both-active,
half-open-intersecting reservations; in particular it is false across
different rooms and false whenever either reservation is not active. -/
theorem c4_se_solapa_con_caracterizacion :
    (∀ a b : Reserva, a.se_solapa_con b = true ↔
      (a.sala_id = b.sala_id ∧ a.estado = .Activa ∧ b.estado = .Activa ∧
       a.fecha_inicio < b.fecha_fin ∧ b.fecha_inicio < a.fecha_fin)) ∧
    (∀ a b : Reserva, a.sala_id ≠ b.sala_id → a.se_solapa_con b = false) ∧
    (∀ a b : Reserva, a.estado ≠ .Activa → a.se_solapa_con b = false) ∧
    (∀ a b : Reserva, b.estado ≠ .Activa → a.se_solapa_con b = false) := by
  refine ⟨se_solapa_con_iff, ?_, ?_, ?_⟩ <;>
    intro a b h <;>
    · rw [← Bool.not_eq_true, se_solapa_con_iff]
      tauto

/-- C4 witness: the characterisation at concrete reservations. -/
theorem c4_witness :
    (Reserva.mk "a" "R1" "u1" 10 12 .Activa 0).se_solapa_con
        (Reserva.mk "b" "R2" "u2" 10 12 .Activa 0) = false ∧
    (Reserva.mk "a" "R1" "u1" 10 12 .Cancelada 0).se_solapa_con
        (Reserva.mk "b" "R1" "u2" 10 12 .Activa 0) = false ∧
    (Reserva.mk "a" "R1" "u1" 10 12 .Activa 0).se_solapa_con
        (Reserva.mk "b" "R1" "u2" 10 12 .Completada 0) = false := by
  refine ⟨?_, ?_, ?_⟩
  · exact c4_se_solapa_con_caracterizacion.2.1 _ _ (by decide)
  · exact c4_se_solapa_con_caracterizacion.2.2.1 _ _ (by decide)
  · exact c4_se_solapa_con_caracterizacion.2.2.2 _ _ (by decide)

/-- C8: the overlap predicate is symmetric for all reservations. -/
theorem c8_se_solapa_con_simetrica :
    ∀ a b : Reserva, a.se_solapa_con b = b.se_solapa_con a := by
  intro a b
  rw [Bool.eq_iff_iff, se_solapa_con_iff, se_solapa_con_iff]
  constructor
  · rintro ⟨hs, ha, hb, h1, h2⟩; exact ⟨hs.symm, hb, ha, h2, h1⟩
  · rintro ⟨hs, ha, hb, h1, h2⟩; exact ⟨hs.symm, hb, ha, h2, h1⟩

/-- C10: at the entity level `cancelar` and `completar` set the state
unconditionally — whatever the current state, including terminal ones —
and change no other field. -/
theorem c10_transiciones_incondicionales :
    ∀ r : Reserva,
      (r.cancelar).estado = .Cancelada ∧ (r.completar).estado = .Completada ∧
      (r.cancelar).id = r.id ∧ (r.cancelar).sala_id = r.sala_id ∧
      (r.cancelar).usuario_id = r.usuario_id ∧
      (r.cancelar).fecha_inicio = r.fecha_inicio ∧
      (r.cancelar).fecha_fin = r.fecha_fin ∧
      (r.cancelar).created_at = r.created_at ∧
      (r.completar).id = r.id ∧ (r.completar).sala_id = r.sala_id ∧
      (r.completar).usuario_id = r.usuario_id ∧
      (r.completar).fecha_inicio = r.fecha_inicio ∧
      (r.completar).fecha_fin = r.fecha_fin ∧
      (r.completar).created_at = r.created_at := by
  intro r
  refine ⟨rfl, rfl, rfl, rfl, rfl, rfl, rfl, rfl, rfl, rfl, rfl, rfl, rfl, rfl⟩
